import Mathlib

/-!
# usf-node client protocol: shallow embedding and verification

This file embeds the core of the `usf-node` TypeScript client
(`src/index.ts`) in Lean 4: the JSON value model, the canonical
request-array encoder (`request`'s `arrayBody` construction), the
HMAC-SHA256 signature generator (`generateSignature`), the response
handling / silent-return reconciliation, and the wrapper methods
`find`, `findOne`, `bulkWrite` and `aggregate`.  Theorems at the end
settle the spec claims against these definitions.
-/

/-- JSON values as produced by `JSON.parse` / consumed by `JSON.stringify`.
Numbers are modelled as integers (all numeric literals appearing in the
client's payloads are integers). -/
inductive Json where
  | null : Json
  | bool (b : Bool) : Json
  | num (n : Int) : Json
  | str (s : String) : Json
  | arr (elems : List Json) : Json
  | obj (fields : List (String × Json)) : Json

/-- Is the value a JS object (non-array)? -/
def Json.isObj : Json → Bool
  | .obj _ => true
  | _ => false

/-- The JS `Array.isArray` test. -/
def Json.isArr : Json → Bool
  | .arr _ => true
  | _ => false

/-- JS truthiness of a parsed-JSON value: `null`, `false`, `0` and `""`
are falsy, everything else (including `[]` and the empty object) is truthy. -/
def jsTruthy : Json → Bool
  | .null => false
  | .bool b => b
  | .num n => n != 0
  | .str s => !s.isEmpty
  | .arr _ => true
  | .obj _ => true

/-- First-match association-list lookup (JS objects have unique keys, so
first-match agrees with JS property lookup). -/
def jsonLookup : List (String × Json) → String → Option Json
  | [], _ => none
  | (k, v) :: rest, key => if k = key then some v else jsonLookup rest key

/-- Optional-chaining property access `v?.k`: `none` models `undefined`
(from a missing property, or from `?.` applied to `null`); property access
on a primitive yields `undefined`. -/
def jsOptChain : Json → String → Option Json
  | .obj fs, k => jsonLookup fs k
  | _, _ => none

/-- The JS `in` operator restricted to the shapes the client probes:
`k in v` for an object checks key presence; on an array the probed string
keys (`"pipeline"`, `"stage"`) are never present. -/
def jsHasProp : Json → String → Bool
  | .obj fs, k => (jsonLookup fs k).isSome
  | _, _ => false

/-- Result of a plain (non-optional) JS property access `v.k`: reading a
property of `null` throws a `TypeError`; on an object the property is
looked up (`none` = `undefined`); on other primitives it is `undefined`. -/
inductive JsGetResult where
  | val (v : Option Json) : JsGetResult
  | throws : JsGetResult

/-- Plain property access `v.k` (see `JsGetResult`). -/
def jsGet : Json → String → JsGetResult
  | .null, _ => .throws
  | .obj fs, k => .val (jsonLookup fs k)
  | _, _ => .val none

/-- Lower-case hex digit. -/
def hexDigitChar (n : Nat) : Char :=
  "0123456789abcdef".toList.getD n '0'

/-- Four-digit hex rendering, for `\uXXXX` escapes. -/
def hex4 (n : Nat) : List Char :=
  [hexDigitChar (n / 4096 % 16), hexDigitChar (n / 256 % 16),
   hexDigitChar (n / 16 % 16), hexDigitChar (n % 16)]

/-- Escaping of a single character inside a string literal. -/
def jsonEscapeChar (c : Char) : List Char :=
  if c = '"' then ['\\', '"']
  else if c = '\\' then ['\\', '\\']
  else if c = '\n' then ['\\', 'n']
  else if c = '\r' then ['\\', 'r']
  else if c = '\t' then ['\\', 't']
  else if c.toNat = 8 then ['\\', 'b']
  else if c.toNat = 12 then ['\\', 'f']
  else if c.toNat < 32 then '\\' :: 'u' :: hex4 c.toNat
  else [c]

/-- Rendering of a string under `JSON.stringify` (quoted and escaped). -/
def jsonQuote (s : String) : String :=
  String.mk ('"' :: (s.data.map jsonEscapeChar).flatten ++ ['"'])

mutual

/-- Serialization `JSON.stringify` of a JSON value (the client serializes the canonical
request array with it, both for signing and for the POST body). -/
def jsonStringify : Json → String
  | .null => "null"
  | .bool b => if b then "true" else "false"
  | .num n => toString n
  | .str s => jsonQuote s
  | .arr xs => "[" ++ jsonStringifyElems xs ++ "]"
  | .obj fs => "\x7b" ++ jsonStringifyFields fs ++ "\x7d"

/-- Comma-separated serialization of array elements. -/
def jsonStringifyElems : List Json → String
  | [] => ""
  | [x] => jsonStringify x
  | x :: y :: rest => jsonStringify x ++ "," ++ jsonStringifyElems (y :: rest)

/-- Comma-separated serialization of object fields. -/
def jsonStringifyFields : List (String × Json) → String
  | [] => ""
  | [(k, v)] => jsonQuote k ++ ":" ++ jsonStringify v
  | (k, v) :: f :: rest =>
      jsonQuote k ++ ":" ++ jsonStringify v ++ "," ++ jsonStringifyFields (f :: rest)

end

/-- One array element under `Array.prototype.toString` (`null` prints empty;
nested arrays/objects are approximated by their tag rendering). -/
def jsDisplayElem : Json → String
  | .null => ""
  | .bool b => if b then "true" else "false"
  | .num n => toString n
  | .str s => s
  | .arr _ => ""
  | .obj _ => "[object Object]"

/-- JS `Array.prototype.toString`: elements joined by commas, with `null`
elements rendered as empty strings. -/
def jsDisplayElems : List Json → String
  | [] => ""
  | [x] => jsDisplayElem x
  | x :: y :: rest => jsDisplayElem x ++ "," ++ jsDisplayElems (y :: rest)

/-- JS `String()` conversion, for the values this client can feed to the
`Error` constructor: parsed-JSON values. Arrays render as the join of their
elements with `null` printed as the empty string; objects render as
`[object Object]`. -/
def jsToDisplayString : Json → String
  | .null => "null"
  | .bool b => if b then "true" else "false"
  | .num n => toString n
  | .str s => s
  | .arr xs => jsDisplayElems xs
  | .obj _ => "[object Object]"

/-! ## Byte-level primitives: UTF-8, SHA-256, HMAC, hex, base64

`generateSignature` relies on Node's `crypto.createHmac("sha256", key)`
and `Buffer.from(s).toString("base64")`.  These external primitives are
embedded here executably: HMAC-SHA256 per FIPS 198-1 over SHA-256 per
FIPS 180-4, on byte lists (`Nat` values below 256). -/

/-- UTF-8 encoding of a Unicode code point. -/
def utf8Bytes (c : Nat) : List Nat :=
  if c < 128 then [c]
  else if c < 2048 then [192 + c / 64, 128 + c % 64]
  else if c < 65536 then [224 + c / 4096, 128 + c / 64 % 64, 128 + c % 64]
  else [240 + c / 262144, 128 + c / 4096 % 64, 128 + c / 64 % 64, 128 + c % 64]

/-- UTF-8 bytes of a string (what `Buffer.from(s)` and `hmac.update(s)`
operate on). -/
def strBytes (s : String) : List Nat :=
  (s.data.map fun ch => utf8Bytes ch.toNat).flatten

/-- Truncation to a 32-bit word. -/
def w32 (x : Nat) : Nat := x % 4294967296

/-- Right rotation of a 32-bit word (rotation amounts used are 1..31). -/
def rotr32 (n x : Nat) : Nat := w32 ((x >>> n) ||| (x <<< (32 - n)))

/-- The eight SHA-256 initial hash values (FIPS 180-4 section 5.3.3). -/
def sha256H0 : List Nat :=
  [1779033703, 3144134277, 1013904242, 2773480762,
   1359893119, 2600822924, 528734635, 1541459225]

/-- The 64 SHA-256 round constants (FIPS 180-4 section 4.2.2), as decimal
word values. -/
def sha256K : List Nat :=
  [1116352408, 1899447441, 3049323471, 3921009573,
   961987163, 1508970993, 2453635748, 2870763221,
   3624381080, 310598401, 607225278, 1426881987,
   1925078388, 2162078206, 2614888103, 3248222580,
   3835390401, 4022224774, 264347078, 604807628,
   770255983, 1249150122, 1555081692, 1996064986,
   2554220882, 2821834349, 2952996808, 3210313671,
   3336571891, 3584528711, 113926993, 338241895,
   666307205, 773529912, 1294757372, 1396182291,
   1695183700, 1986661051, 2177026350, 2456956037,
   2730485921, 2820302411, 3259730800, 3345764771,
   3516065817, 3600352804, 4094571909, 275423344,
   430227734, 506948616, 659060556, 883997877,
   958139571, 1322822218, 1537002063, 1747873779,
   1955562222, 2024104815, 2227730452, 2361852424,
   2428436474, 2756734187, 3204031479, 3329325298]

/-- Big-endian 8-byte rendering of a (bit-)length. -/
def be64 (n : Nat) : List Nat :=
  [n >>> 56 % 256, n >>> 48 % 256, n >>> 40 % 256, n >>> 32 % 256,
   n >>> 24 % 256, n >>> 16 % 256, n >>> 8 % 256, n % 256]

/-- Big-endian 4-byte rendering of a 32-bit word. -/
def be32 (n : Nat) : List Nat :=
  [n >>> 24 % 256, n >>> 16 % 256, n >>> 8 % 256, n % 256]

/-- SHA-256 message padding (FIPS 180-4 section 5.1.1): `0x80`, zeros to
56 mod 64, then the 64-bit big-endian bit length. -/
def sha256Pad (msg : List Nat) : List Nat :=
  let zeros := (120 - (msg.length + 1) % 64) % 64
  msg ++ 0x80 :: List.replicate zeros 0 ++ be64 (msg.length * 8)

/-- Split a byte list into 64-byte blocks. -/
def chunks64 (l : List Nat) : List (List Nat) :=
  if h : l = [] then []
  else l.take 64 :: chunks64 (l.drop 64)
termination_by l.length
decreasing_by
  simp only [List.length_drop]
  exact Nat.sub_lt (List.length_pos.mpr h) (by norm_num)

/-- Big-endian 32-bit words from bytes. -/
def bytesToWords : List Nat → List Nat
  | b0 :: b1 :: b2 :: b3 :: rest =>
      (b0 * 16777216 + b1 * 65536 + b2 * 256 + b3) :: bytesToWords rest
  | _ => []

/-- Extend the 16 block words to the 64-entry message schedule
(FIPS 180-4 section 6.2.2 step 1). -/
def sha256Schedule (blockWords : List Nat) : Array Nat :=
  (List.range 48).foldl
    (fun w j =>
      let i := j + 16
      let x := w.getD (i - 15) 0
      let y := w.getD (i - 2) 0
      let s0 := (rotr32 7 x) ^^^ (rotr32 18 x) ^^^ (x >>> 3)
      let s1 := (rotr32 17 y) ^^^ (rotr32 19 y) ^^^ (y >>> 10)
      w.push (w32 (w.getD (i - 16) 0 + s0 + w.getD (i - 7) 0 + s1)))
    blockWords.toArray

/-- One SHA-256 compression round state: `(a, b, c, d, e, f, g, h)`. -/
def sha256Round (w : Array Nat) (st : Nat × Nat × Nat × Nat × Nat × Nat × Nat × Nat)
    (i : Nat) : Nat × Nat × Nat × Nat × Nat × Nat × Nat × Nat :=
  let (a, b, c, d, e, f, g, h) := st
  let bigS1 := (rotr32 6 e) ^^^ (rotr32 11 e) ^^^ (rotr32 25 e)
  let ch := (e &&& f) ^^^ ((e ^^^ 4294967295) &&& g)
  let temp1 := w32 (h + bigS1 + ch + sha256K.getD i 0 + w.getD i 0)
  let bigS0 := (rotr32 2 a) ^^^ (rotr32 13 a) ^^^ (rotr32 22 a)
  let maj := (b &&& c) ^^^ (a &&& b) ^^^ (a &&& c)
  let temp2 := w32 (bigS0 + maj)
  (w32 (temp1 + temp2), a, b, c, w32 (d + temp1), e, f, g)

/-- SHA-256 compression of one 64-byte block into the running hash. -/
def sha256Compress (hs : List Nat) (block : List Nat) : List Nat :=
  let w := sha256Schedule (bytesToWords block)
  let init := (hs.getD 0 0, hs.getD 1 0, hs.getD 2 0, hs.getD 3 0,
               hs.getD 4 0, hs.getD 5 0, hs.getD 6 0, hs.getD 7 0)
  let (a, b, c, d, e, f, g, h) := (List.range 64).foldl (sha256Round w) init
  [w32 (hs.getD 0 0 + a), w32 (hs.getD 1 0 + b), w32 (hs.getD 2 0 + c),
   w32 (hs.getD 3 0 + d), w32 (hs.getD 4 0 + e), w32 (hs.getD 5 0 + f),
   w32 (hs.getD 6 0 + g), w32 (hs.getD 7 0 + h)]

/-- SHA-256 digest (32 bytes) of a byte list. -/
def sha256 (msg : List Nat) : List Nat :=
  (((chunks64 (sha256Pad msg)).foldl sha256Compress sha256H0).map be32).flatten

/-- HMAC-SHA256 (FIPS 198-1) over byte lists. -/
def hmacSha256 (key msg : List Nat) : List Nat :=
  let k0 := if 64 < key.length then sha256 key else key
  let k := k0 ++ List.replicate (64 - k0.length) 0
  let ipad := k.map fun b => b ^^^ 0x36
  let opad := k.map fun b => b ^^^ 0x5c
  sha256 (opad ++ sha256 (ipad ++ msg))

/-- Lower-case hex rendering of a byte list (`digest("hex")`). -/
def bytesToHex (bs : List Nat) : String :=
  String.mk (bs.map fun b => [hexDigitChar (b / 16 % 16), hexDigitChar (b % 16)]).flatten

/-- Hex-encoded HMAC-SHA256, as `crypto.createHmac("sha256", key).update(msg).digest("hex")`
produces for string inputs. -/
def hmacSha256Hex (key msg : String) : String :=
  bytesToHex (hmacSha256 (strBytes key) (strBytes msg))

/-- The base64 alphabet. -/
def base64Alphabet : List Char :=
  "ABCDEFGHIJKLMNOPQRSTUVWXYZabcdefghijklmnopqrstuvwxyz0123456789+/".toList

/-- Base64 character for a 6-bit group. -/
def base64Char (n : Nat) : Char := base64Alphabet.getD n 'A'

/-- Base64 encoding of a byte list, with `=` padding (RFC 4648). -/
def base64EncodeChars : List Nat → List Char
  | [] => []
  | [b0] =>
      [base64Char (b0 >>> 2), base64Char ((b0 &&& 3) <<< 4), '=', '=']
  | [b0, b1] =>
      [base64Char (b0 >>> 2), base64Char (((b0 &&& 3) <<< 4) ||| (b1 >>> 4)),
       base64Char ((b1 &&& 15) <<< 2), '=']
  | b0 :: b1 :: b2 :: rest =>
      base64Char (b0 >>> 2) :: base64Char (((b0 &&& 3) <<< 4) ||| (b1 >>> 4)) ::
      base64Char (((b1 &&& 15) <<< 2) ||| (b2 >>> 6)) :: base64Char (b2 &&& 63) ::
      base64EncodeChars rest

/-- Base64 of the UTF-8 bytes of a string, as `Buffer.from(s).toString("base64")`. -/
def base64OfString (s : String) : String :=
  String.mk (base64EncodeChars (strBytes s))

/-! ## Signature generator (`UsfNode.generateSignature`) -/

/-- The credential triple validated by the `UsfNode` constructor. -/
structure Credentials where
  authorizerId : String
  secret : String
  privateKey : String

/-- The method `UsfNode.generateSignature`, with the clock injected: `time` is
`Date.now().toString()` as captured inside the method.  The `catch` branch
of the source (`"Failed to generate signature"`) is unreachable for string
keys, so the success path is total here. -/
def generateSignature (c : Credentials) (body : Json) (time : String) : String :=
  let data := jsonStringify body ++ time
  let hmac := hmacSha256Hex c.privateKey data
  let b64Time := base64OfString time
  c.authorizerId ++ "." ++ c.secret ++ "." ++ hmac ++ "." ++ b64Time

/-! ## Request encoder (`UsfNode.request`, `arrayBody` construction) -/

/-- The operation descriptor handed to `UsfNode.request` by the wrapper
methods.  `query` is `Json.null` for pure-document operations (JS
`undefined` at that array position serializes as `null`, like
`Json.null`). -/
structure RequestBody where
  operation : String
  query : Json
  document : Option Json
  selectOptions : Option Json

/-- The document element appended to the canonical array:
`if (body.document && body.operation !== "aggregate") arrayBody.push(body.document)`. -/
def documentSuffix (b : RequestBody) : List Json :=
  match b.document with
  | some d => if jsTruthy d && b.operation ≠ "aggregate" then [d] else []
  | none => []

/-- The options element value: `(body.selectOptions as Record<string, unknown>) || {}`. -/
def jsOptionsValue : Option Json → Json
  | some o => if jsTruthy o then o else Json.obj []
  | none => Json.obj []

/-- The canonical request array `arrayBody` built by `UsfNode.request`:
`[operation, query]`, then the document (unless the operation is
`aggregate`), then the options object (unless the operation is
`aggregate`, `batchUpdate` or `bulkWrite`). -/
def encodeRequest (b : RequestBody) : List Json :=
  Json.str b.operation :: b.query :: documentSuffix b ++
    (if b.operation ≠ "aggregate" ∧ b.operation ≠ "batchUpdate" ∧ b.operation ≠ "bulkWrite"
     then [jsOptionsValue b.selectOptions]
     else [])

/-! ## Transport outcome and response handling (`UsfNode.request`) -/

/-- An HTTP response as observed by the client: `ok` is `response.ok`
(status 2xx), `bodyJson` is the result of attempting `response.json()`
(`none` = the body is not parseable JSON), `bodyText` is the raw body text
read by `response.text()` in the parse-failure fallback. -/
structure HttpResponse where
  ok : Bool
  bodyJson : Option Json
  bodyText : String

/-- Outcome of the `fetch` call itself: either the transport fails (the
promise rejects — DNS, connection refused, ...) or a response arrives. -/
inductive FetchResult where
  | failure : FetchResult
  | success (resp : HttpResponse) : FetchResult

/-- A raised JS error: `Error` with a message, or a `TypeError` from a
property access on `undefined`/`null`. -/
inductive JsError where
  | error (message : String) : JsError
  | typeError : JsError

/-- How a call to `UsfNode.request` settles: the promise resolves with a
value, or rejects with a raised error. -/
inductive RequestOutcome where
  | resolved (v : Json) : RequestOutcome
  | raised (e : JsError) : RequestOutcome

/-- The `errorMessage` value computed in the non-ok branch of
`UsfNode.request`: on a parseable body, `errorJson?.error || errorJson`;
on an unparseable body, the fallback
`\x7berror: \x7bmessage: <body text>, code: "PARSE_ERROR"\x7d\x7d`.
(The initial `"Failed to fetch" / "NETWORK_ERROR"` default is overwritten
on every path before use.) -/
def extractErrorMessage (bodyJson : Option Json) (bodyText : String) : Json :=
  match bodyJson with
  | some errorJson =>
      match jsOptChain errorJson "error" with
      | some v => if jsTruthy v then v else errorJson
      | none => errorJson
  | none =>
      Json.obj [("error", Json.obj [("message", Json.str bodyText),
                                    ("code", Json.str "PARSE_ERROR")])]

/-- The evaluation of `new Error(errorMessage.error.message)`: reading
`.error` off a non-object or getting `undefined`/`null` there makes the
`.message` access throw a `TypeError`; otherwise the message value is
converted to the `Error` message string (`undefined` gives the empty
message). -/
def throwRemoteError (errorMessage : Json) : JsError :=
  match jsGet errorMessage "error" with
  | .throws => .typeError
  | .val none => .typeError
  | .val (some (Json.null)) => .typeError
  | .val (some e) =>
      match jsGet e "message" with
      | .throws => .typeError
      | .val none => .error ""
      | .val (some m) => .error (jsToDisplayString m)

/-- Response handling in `UsfNode.request` after `fetch` returned a
response: the non-2xx branch builds `errorMessage` and either returns it
(silent mode) or throws; the 2xx branch parses the body, raising
`"Failed to parse response"` when parsing fails. -/
def processResponse (silentReturn : Bool) (resp : HttpResponse) : RequestOutcome :=
  if resp.ok then
    match resp.bodyJson with
    | some data => .resolved data
    | none => .raised (.error "Failed to parse response")
  else
    let errorMessage := extractErrorMessage resp.bodyJson resp.bodyText
    if silentReturn then .resolved errorMessage
    else .raised (throwRemoteError errorMessage)

/-- The method `UsfNode.request`: encode the descriptor, dispatch it (the transport is
injected as `fetchAt`, mapping the transmitted canonical array to a
`FetchResult`), and reconcile the outcome.  A transport failure raises the
network error before any silent-return consideration. -/
def request (silentReturn : Bool) (b : RequestBody)
    (fetchAt : List Json → FetchResult) : RequestOutcome :=
  match fetchAt (encodeRequest b) with
  | .failure => .raised (.error "Network error occurred while attempting to reach the server.")
  | .success resp => processResponse silentReturn resp

/-! ## Wrapper methods: `find`, `findOne`, `bulkWrite`, `aggregate` -/

/-- The wrapper `UsfNode.find(query, options)`. -/
def find (silentReturn : Bool) (query options : Json)
    (fetchAt : List Json → FetchResult) : RequestOutcome :=
  request silentReturn
    { operation := "find", query := query, document := none, selectOptions := some options }
    fetchAt

/-- Replacement of a key in an object's field list, as JS object-spread
update does: an existing key keeps its position and gets the new value, a
fresh key is appended at the end. -/
def setField : List (String × Json) → String → Json → List (String × Json)
  | [], k, v => [(k, v)]
  | (k', v') :: rest, k, v =>
      if k' = k then (k, v) :: rest else (k', v') :: setField rest k v

/-- The select options `findOne` sends: the JS spread
`\x7b ...options, limit: 1 \x7d` (for object-valued `options`, per the
`FindOptions` type). -/
def findOneSelectOptions (options : Json) : Json :=
  match options with
  | .obj fs => .obj (setField fs "limit" (Json.num 1))
  | _ => .obj [("limit", Json.num 1)]

/-- The descriptor `findOne` passes to `request`. -/
def findOneRequestBody (query options : Json) : RequestBody :=
  { operation := "find", query := query, document := none,
    selectOptions := some (findOneSelectOptions options) }

/-- How a `findOne` call settles: `resolved none` models resolving to JS
`undefined` (`items[0]` of an empty array). -/
inductive FindOneOutcome where
  | resolved (v : Option Json) : FindOneOutcome
  | raised (e : JsError) : FindOneOutcome

/-- The wrapper `UsfNode.findOne(query, options)`: a `find` with `limit`
forced to 1, returning `items[0]` when the response is an array and the
response value unchanged otherwise. -/
def findOne (silentReturn : Bool) (query options : Json)
    (fetchAt : List Json → FetchResult) : FindOneOutcome :=
  match request silentReturn (findOneRequestBody query options) fetchAt with
  | .raised e => .raised e
  | .resolved (.arr items) => .resolved items.head?
  | .resolved v => .resolved (some v)

/-- The descriptor `bulkWrite` passes to `request`:
`Array.isArray(operations) ? operations : [operations]` in the query slot,
the caller's options as `selectOptions`. -/
def bulkWriteRequestBody (operations options : Json) : RequestBody :=
  { operation := "bulkWrite",
    query := match operations with
             | .arr _ => operations
             | _ => .arr [operations],
    document := none,
    selectOptions := some options }

/-- The wrapper `UsfNode.bulkWrite(operations, options)`. -/
def bulkWrite (silentReturn : Bool) (operations options : Json)
    (fetchAt : List Json → FetchResult) : RequestOutcome :=
  request silentReturn (bulkWriteRequestBody operations options) fetchAt

/-- The arrow `stage => stage.stage` mapped over pipeline entries.  For a
well-formed `AggregateStage` the key is present; the fallbacks (absent key
or non-object entry, where JS would produce `undefined` or throw) are
modelled as `null` and are unreachable in the claims' well-formed
instances. -/
def bareStage (stage : Json) : Json :=
  match stage with
  | .obj fs => (jsonLookup fs "stage").getD Json.null
  | _ => Json.null

/-- The pipeline normalization in `UsfNode.aggregate`: a
`\x7bpipeline: [...]\x7d` envelope or a non-empty array whose head carries
a `stage` key is unwrapped stage-by-stage; anything else (a flat stage
array) passes through unchanged.  The inner non-array fallback (where JS
`.map` would throw) returns the input and is unreachable for well-typed
callers. -/
def normalizeAggregatePipeline (pipeline : Json) : Json :=
  if jsHasProp pipeline "pipeline" then
    match jsOptChain pipeline "pipeline" with
    | some (.arr stages) => .arr (stages.map bareStage)
    | _ => pipeline
  else
    match pipeline with
    | .arr [] => .arr []
    | .arr (s0 :: rest) =>
        if jsHasProp s0 "stage" then .arr ((s0 :: rest).map bareStage)
        else .arr (s0 :: rest)
    | _ => pipeline

/-- The descriptor `aggregate` passes to `request` (no document, no
select options). -/
def aggregateRequestBody (pipeline : Json) : RequestBody :=
  { operation := "aggregate", query := normalizeAggregatePipeline pipeline,
    document := none, selectOptions := none }

/-- The wrapper `UsfNode.aggregate(pipeline)`. -/
def aggregate (silentReturn : Bool) (pipeline : Json)
    (fetchAt : List Json → FetchResult) : RequestOutcome :=
  request silentReturn (aggregateRequestBody pipeline) fetchAt

/-- Wrapping of a bare stage as an `AggregateStage` value `\x7bstage: s\x7d`
(the second accepted input shape of `aggregate`). -/
def wrapStage (s : Json) : Json := Json.obj [("stage", s)]

/-! ## Concrete scenario values -/

/-- The simulated 400-response body
`\x7b"error":\x7b"message":"bad query","code":"BAD_QUERY"\x7d\x7d`. -/
def badQueryErrorBody : Json :=
  Json.obj [("error", Json.obj [("message", Json.str "bad query"),
                                ("code", Json.str "BAD_QUERY")])]

/-- A non-2xx response carrying `badQueryErrorBody` as parseable JSON. -/
def badQueryResponse : HttpResponse :=
  { ok := false, bodyJson := some badQueryErrorBody,
    bodyText := "\x7b\"error\":\x7b\"message\":\"bad query\",\"code\":\"BAD_QUERY\"\x7d\x7d" }

/-- A transport that answers every request with the 400 `bad query`
response. -/
def badQueryFetch : List Json → FetchResult :=
  fun _ => .success badQueryResponse

/-- Observation distinguishing outcomes: did the call resolve to a value
carrying an `error` key (the documented `ErrorResponse` shape)? -/
def outcomeHasErrorKey : RequestOutcome → Bool
  | .resolved v => jsHasProp v "error"
  | .raised _ => false

/-- Observation distinguishing outcomes: did the call reject with a
`TypeError`? -/
def outcomeIsTypeError : RequestOutcome → Bool
  | .raised .typeError => true
  | _ => false

/-! ## Helper lemmas -/

/-- Replacing a key makes it present with the new value. -/
theorem jsonLookup_setField_self (fs : List (String × Json)) (k : String) (v : Json) :
    jsonLookup (setField fs k v) k = some v := by
  induction fs with
  | nil => simp [setField, jsonLookup]
  | cons p rest ih =>
      obtain ⟨k', v'⟩ := p
      by_cases h : k' = k
      · simp [setField, h, jsonLookup]
      · simp [setField, h, jsonLookup, ih]

/-- Replacing one key leaves every other key's lookup unchanged. -/
theorem jsonLookup_setField_other (fs : List (String × Json)) (k k' : String) (v : Json)
    (h : k' ≠ k) : jsonLookup (setField fs k v) k' = jsonLookup fs k' := by
  have h' : k ≠ k' := Ne.symm h
  induction fs with
  | nil => simp [setField, jsonLookup, h']
  | cons p rest ih =>
      obtain ⟨k0, v0⟩ := p
      by_cases h0 : k0 = k
      · subst h0
        simp [setField, jsonLookup, h']
      · simp [setField, h0, jsonLookup, ih]

/-- Unwrapping inverts wrapping, stage by stage. -/
theorem bareStage_wrapStage (s : Json) : bareStage (wrapStage s) = s := rfl

/-- Unwrapping a wrapped pipeline gives back the bare stages. -/
theorem map_bareStage_wrapStage (ss : List Json) :
    (ss.map wrapStage).map bareStage = ss := by
  induction ss with
  | nil => rfl
  | cons s rest ih => simp [bareStage_wrapStage, ih]

/-- Probing an array value for a string key (as the `in` operator does)
finds nothing. -/
theorem jsHasProp_arr (xs : List Json) (k : String) : jsHasProp (Json.arr xs) k = false := rfl

/-- Composition form of `map_bareStage_wrapStage`. -/
theorem map_comp_bareStage_wrapStage (ss : List Json) : ss.map (bareStage ∘ wrapStage) = ss := by
  rw [show bareStage ∘ wrapStage = id from funext fun s => bareStage_wrapStage s, List.map_id]

/-- The last element of a canonical array that ends in an appended
element. -/
theorem getLast?_cons_cons_append (a b x : Json) (l : List Json) :
    (a :: b :: (l ++ [x])).getLast? = some x := by
  have e : a :: b :: (l ++ [x]) = (a :: b :: l) ++ [x] := by simp
  rw [e, List.getLast?_concat]

/-! ## Claim theorems -/

/-- C1: the claim says that with `silentReturn = true` a non-2xx response
whose body is `\x7b"error":\x7b"message":m,"code":c\x7d\x7d` makes `find`
resolve to a value that keeps the `error` wrapper.  The code instead
executes `errorMessage = errorJson?.error || errorJson`, which strips the
wrapper: the call resolves to the inner `\x7bmessage, code\x7d` pair, and
in particular not to the documented wrapped shape.  This theorem evaluates
the embedded code at the claim's own scenario
(`find(\x7bx:1\x7d)` against a 400 `bad query` body). -/
theorem find_silent_unwraps_error_object :
    find true (Json.obj [("x", Json.num 1)]) (Json.obj []) badQueryFetch
      = RequestOutcome.resolved
          (Json.obj [("message", Json.str "bad query"), ("code", Json.str "BAD_QUERY")])
    ∧ find true (Json.obj [("x", Json.num 1)]) (Json.obj []) badQueryFetch
      ≠ RequestOutcome.resolved badQueryErrorBody := by
  refine ⟨rfl, fun h => absurd (congrArg outcomeHasErrorKey h) ?_⟩
  decide

/-- C2: the claim says that with `silentReturn = false` the same scenario
raises an error whose message is `"bad query"`.  Because the wrapper was
already stripped into `errorMessage`, the throw expression
`new Error(errorMessage.error.message)` reads `.message` off `undefined`
and the call instead rejects with a `TypeError`; the raised error does not
carry the message `"bad query"`. -/
theorem find_throwing_raises_type_error :
    find false (Json.obj [("x", Json.num 1)]) (Json.obj []) badQueryFetch
      = RequestOutcome.raised JsError.typeError
    ∧ find false (Json.obj [("x", Json.num 1)]) (Json.obj []) badQueryFetch
      ≠ RequestOutcome.raised (JsError.error "bad query") := by
  refine ⟨rfl, fun h => absurd (congrArg outcomeIsTypeError h) ?_⟩
  decide

/-- C6: a 2xx response whose body is not parseable JSON always raises
`"Failed to parse response"`, for both values of `silentReturn`. -/
theorem success_parse_failure_always_raises (silent : Bool) (resp : HttpResponse)
    (h1 : resp.ok = true) (h2 : resp.bodyJson = none) :
    processResponse silent resp = RequestOutcome.raised (JsError.error "Failed to parse response") := by
  simp [processResponse, h1, h2]

/-- Witness for C6 at a concrete unparsable 2xx response, in both modes. -/
theorem success_parse_failure_always_raises_witness :
    (HttpResponse.mk true none "garbage").ok = true
    ∧ (HttpResponse.mk true none "garbage").bodyJson = none
    ∧ processResponse true (HttpResponse.mk true none "garbage")
        = RequestOutcome.raised (JsError.error "Failed to parse response")
    ∧ processResponse false (HttpResponse.mk true none "garbage")
        = RequestOutcome.raised (JsError.error "Failed to parse response") :=
  ⟨rfl, rfl,
   success_parse_failure_always_raises true (HttpResponse.mk true none "garbage") rfl rfl,
   success_parse_failure_always_raises false (HttpResponse.mk true none "garbage") rfl rfl⟩

/-- C7: when the transport itself fails (the `fetch` promise rejects, no
HTTP response), the call raises the network error regardless of
`silentReturn` — silent mode never converts a transport failure into a
returned value. -/
theorem transport_failure_always_raises (silent : Bool) (b : RequestBody)
    (fetchAt : List Json → FetchResult)
    (h : fetchAt (encodeRequest b) = FetchResult.failure) :
    request silent b fetchAt
      = RequestOutcome.raised
          (JsError.error "Network error occurred while attempting to reach the server.") := by
  simp [request, h]

/-- Witness for C7: a concrete `find` descriptor over a transport that
fails, in both modes. -/
theorem transport_failure_always_raises_witness :
    (fun _ : List Json => FetchResult.failure)
        (encodeRequest (RequestBody.mk "find" (Json.obj [("x", Json.num 1)]) none (some (Json.obj []))))
      = FetchResult.failure
    ∧ request true (RequestBody.mk "find" (Json.obj [("x", Json.num 1)]) none (some (Json.obj [])))
        (fun _ => FetchResult.failure)
      = RequestOutcome.raised
          (JsError.error "Network error occurred while attempting to reach the server.")
    ∧ request false (RequestBody.mk "find" (Json.obj [("x", Json.num 1)]) none (some (Json.obj [])))
        (fun _ => FetchResult.failure)
      = RequestOutcome.raised
          (JsError.error "Network error occurred while attempting to reach the server.") :=
  ⟨rfl,
   transport_failure_always_raises true
     (RequestBody.mk "find" (Json.obj [("x", Json.num 1)]) none (some (Json.obj [])))
     (fun _ => FetchResult.failure) rfl,
   transport_failure_always_raises false
     (RequestBody.mk "find" (Json.obj [("x", Json.num 1)]) none (some (Json.obj [])))
     (fun _ => FetchResult.failure) rfl⟩

/-- C8: the signature token is exactly
`authorizerId . secret . hex(HMAC-SHA256(privateKey, stringify(payload) ++ t)) . base64(t)`
for every payload and captured time string `t`.  As an equation between
pure functions of `(credentials, payload, t)` it also exhibits the
determinism the claim states: a fixed time input fixes the token. -/
theorem generateSignature_token_structure (c : Credentials) (payload : Json) (time : String) :
    generateSignature c payload time
      = c.authorizerId ++ "." ++ c.secret ++ "."
          ++ hmacSha256Hex c.privateKey (jsonStringify payload ++ time) ++ "."
          ++ base64OfString time := rfl

/-- C3: for every stage list (bare operator objects, which per the
`AggregateStages` shape never carry a literal `stage` key), the flat list,
the `\x7bstage: s\x7d`-wrapped list, and the `\x7bpipeline: [...]\x7d`
envelope all normalize to the same canonical query value, and the
normalization leaves an already-flat pipeline unchanged (idempotence). -/
theorem aggregate_pipeline_normalization (ss : List Json)
    (h : ∀ s ∈ ss, s.isObj = true ∧ jsHasProp s "stage" = false) :
    normalizeAggregatePipeline (Json.arr ss) = Json.arr ss
    ∧ normalizeAggregatePipeline (Json.arr (ss.map wrapStage)) = Json.arr ss
    ∧ normalizeAggregatePipeline (Json.obj [("pipeline", Json.arr (ss.map wrapStage))])
        = Json.arr ss := by
  refine ⟨?_, ?_, ?_⟩
  · cases ss with
    | nil => rfl
    | cons s0 rest =>
        have h0 := (h s0 (by simp)).2
        simp [normalizeAggregatePipeline, jsHasProp_arr, h0]
  · cases ss with
    | nil => rfl
    | cons s0 rest =>
        simp [normalizeAggregatePipeline, jsHasProp_arr, wrapStage, jsHasProp, jsonLookup,
              bareStage, map_comp_bareStage_wrapStage]
  · simp [normalizeAggregatePipeline, jsHasProp, jsonLookup, jsOptChain,
          map_bareStage_wrapStage, map_comp_bareStage_wrapStage]

/-- Witness for C3 at a concrete one-stage pipeline. -/
theorem aggregate_pipeline_normalization_witness :
    (∀ s ∈ [Json.obj [("$match", Json.obj [("x", Json.num 1)])]],
        s.isObj = true ∧ jsHasProp s "stage" = false)
    ∧ (normalizeAggregatePipeline (Json.arr [Json.obj [("$match", Json.obj [("x", Json.num 1)])]])
         = Json.arr [Json.obj [("$match", Json.obj [("x", Json.num 1)])]]
       ∧ normalizeAggregatePipeline
           (Json.arr [Json.obj [("stage", Json.obj [("$match", Json.obj [("x", Json.num 1)])])]])
         = Json.arr [Json.obj [("$match", Json.obj [("x", Json.num 1)])]]
       ∧ normalizeAggregatePipeline
           (Json.obj [("pipeline",
              Json.arr [Json.obj [("stage", Json.obj [("$match", Json.obj [("x", Json.num 1)])])]])])
         = Json.arr [Json.obj [("$match", Json.obj [("x", Json.num 1)])]]) :=
  have hh : ∀ s ∈ [Json.obj [("$match", Json.obj [("x", Json.num 1)])]],
      s.isObj = true ∧ jsHasProp s "stage" = false := by
    intro s hs
    rw [List.mem_singleton] at hs
    subst hs
    exact ⟨rfl, rfl⟩
  ⟨hh, aggregate_pipeline_normalization [Json.obj [("$match", Json.obj [("x", Json.num 1)])]] hh⟩

/-- C4: for `aggregate`, `batchUpdate` and `bulkWrite` the canonical array
is unaffected by any supplied options value (no options element is ever
appended); for every other operation the canonical array ends with the
options element `selectOptions || \x7b\x7d`. -/
theorem options_element_rule (b : RequestBody) (o : Option Json) :
    ((b.operation = "aggregate" ∨ b.operation = "batchUpdate" ∨ b.operation = "bulkWrite") →
        encodeRequest { b with selectOptions := o }
          = encodeRequest { b with selectOptions := none })
    ∧ ((b.operation ≠ "aggregate" ∧ b.operation ≠ "batchUpdate" ∧ b.operation ≠ "bulkWrite") →
        (encodeRequest b).getLast? = some (jsOptionsValue b.selectOptions)) := by
  constructor
  · intro h
    rcases h with h | h | h <;> simp [encodeRequest, documentSuffix, h]
  · intro h
    have he : encodeRequest b
        = Json.str b.operation :: b.query
            :: (documentSuffix b ++ [jsOptionsValue b.selectOptions]) := by
      simp [encodeRequest, h.1, h.2.1, h.2.2]
    rw [he]
    exact getLast?_cons_cons_append _ _ _ _

/-- Witness for C4: a `bulkWrite` descriptor whose supplied options do not
change the canonical array, and a `find` descriptor whose canonical array
ends with its options element. -/
theorem options_element_rule_witness :
    (("bulkWrite" : String) = "aggregate" ∨ ("bulkWrite" : String) = "batchUpdate"
       ∨ ("bulkWrite" : String) = "bulkWrite")
    ∧ encodeRequest
        (RequestBody.mk "bulkWrite" (Json.arr []) none (some (Json.obj [("ordered", Json.bool true)])))
        = encodeRequest (RequestBody.mk "bulkWrite" (Json.arr []) none none)
    ∧ (("find" : String) ≠ "aggregate" ∧ ("find" : String) ≠ "batchUpdate"
         ∧ ("find" : String) ≠ "bulkWrite")
    ∧ (encodeRequest (RequestBody.mk "find" (Json.obj []) none (some (Json.obj [("limit", Json.num 2)])))).getLast?
        = some (Json.obj [("limit", Json.num 2)]) :=
  ⟨Or.inr (Or.inr rfl),
   (options_element_rule (RequestBody.mk "bulkWrite" (Json.arr []) none none)
       (some (Json.obj [("ordered", Json.bool true)]))).1 (Or.inr (Or.inr rfl)),
   ⟨by decide, by decide, by decide⟩,
   (options_element_rule
       (RequestBody.mk "find" (Json.obj []) none (some (Json.obj [("limit", Json.num 2)])))
       none).2 ⟨by decide, by decide, by decide⟩⟩

/-- C5: `bulkWrite` places a single (non-array) operation object into the
query slot — element 1 of the canonical array — as a one-element sequence,
and passes an array of operations through to that slot unchanged. -/
theorem bulkWrite_single_op_normalized (operations options : Json) :
    (operations.isArr = false →
        (encodeRequest (bulkWriteRequestBody operations options))[1]?
          = some (Json.arr [operations]))
    ∧ (∀ l, operations = Json.arr l →
        (encodeRequest (bulkWriteRequestBody operations options))[1]? = some (Json.arr l)) := by
  constructor
  · intro h
    cases operations <;>
      simp_all [encodeRequest, bulkWriteRequestBody, documentSuffix, Json.isArr]
  · intro l hl
    subst hl
    simp [encodeRequest, bulkWriteRequestBody, documentSuffix]

/-- Witness for C5 at the spec's scenario operation
`\x7bupdateOne: \x7bfilter: \x7bsku:"A"\x7d, update: \x7b$set: \x7bqty:5\x7d\x7d\x7d\x7d`. -/
theorem bulkWrite_single_op_normalized_witness :
    (Json.obj [("updateOne",
        Json.obj [("filter", Json.obj [("sku", Json.str "A")]),
                  ("update", Json.obj [("$set", Json.obj [("qty", Json.num 5)])])])]).isArr
      = false
    ∧ (encodeRequest (bulkWriteRequestBody
          (Json.obj [("updateOne",
              Json.obj [("filter", Json.obj [("sku", Json.str "A")]),
                        ("update", Json.obj [("$set", Json.obj [("qty", Json.num 5)])])])])
          (Json.obj [])))[1]?
      = some (Json.arr [Json.obj [("updateOne",
          Json.obj [("filter", Json.obj [("sku", Json.str "A")]),
                    ("update", Json.obj [("$set", Json.obj [("qty", Json.num 5)])])])]]) :=
  ⟨rfl,
   (bulkWrite_single_op_normalized
       (Json.obj [("updateOne",
           Json.obj [("filter", Json.obj [("sku", Json.str "A")]),
                     ("update", Json.obj [("$set", Json.obj [("qty", Json.num 5)])])])])
       (Json.obj [])).1 rfl⟩

/-- C9: `findOne` dispatches a `find` whose options are the caller's
options with `limit` overridden to `1` (any caller-supplied `limit` is
replaced); when the request resolves to an array the call resolves to its
first element (`none` = JS `undefined` for the empty array, not an error),
and when it resolves to a non-array value (e.g. an error outcome in silent
mode) that value is returned unchanged. -/
theorem findOne_is_find_with_limit_one (silent : Bool) (q : Json)
    (fields : List (String × Json)) (fetchAt : List Json → FetchResult) :
    jsOptChain (findOneSelectOptions (Json.obj fields)) "limit" = some (Json.num 1)
    ∧ (∀ k, k ≠ "limit" →
        jsOptChain (findOneSelectOptions (Json.obj fields)) k
          = jsOptChain (Json.obj fields) k)
    ∧ (∀ items,
        request silent (findOneRequestBody q (Json.obj fields)) fetchAt
            = RequestOutcome.resolved (Json.arr items) →
        findOne silent q (Json.obj fields) fetchAt = FindOneOutcome.resolved items.head?)
    ∧ (∀ v,
        request silent (findOneRequestBody q (Json.obj fields)) fetchAt
            = RequestOutcome.resolved v →
        v.isArr = false →
        findOne silent q (Json.obj fields) fetchAt = FindOneOutcome.resolved (some v)) := by
  refine ⟨?_, ?_, ?_, ?_⟩
  · simp [findOneSelectOptions, jsOptChain, jsonLookup_setField_self]
  · intro k hk
    simp [findOneSelectOptions, jsOptChain, jsonLookup_setField_other fields "limit" k (Json.num 1) hk]
  · intro items hreq
    simp [findOne, hreq]
  · intro v hreq hv
    cases v <;> simp_all [findOne, Json.isArr]

/-- Witness for C9: caller options `\x7blimit: 50\x7d` are sent with
`limit` replaced by `1`; an empty-array response resolves to `undefined`;
the non-array silent error value comes back unchanged. -/
theorem findOne_is_find_with_limit_one_witness :
    jsOptChain (findOneSelectOptions (Json.obj [("limit", Json.num 50)])) "limit"
      = some (Json.num 1)
    ∧ ("skip" : String) ≠ "limit"
    ∧ jsOptChain (findOneSelectOptions (Json.obj [("limit", Json.num 50)])) "skip"
      = jsOptChain (Json.obj [("limit", Json.num 50)]) "skip"
    ∧ request true (findOneRequestBody (Json.obj []) (Json.obj [("limit", Json.num 50)]))
        (fun _ => FetchResult.success (HttpResponse.mk true (some (Json.arr [])) ""))
      = RequestOutcome.resolved (Json.arr [])
    ∧ findOne true (Json.obj []) (Json.obj [("limit", Json.num 50)])
        (fun _ => FetchResult.success (HttpResponse.mk true (some (Json.arr [])) ""))
      = FindOneOutcome.resolved none
    ∧ request true (findOneRequestBody (Json.obj []) (Json.obj [("limit", Json.num 50)]))
        badQueryFetch
      = RequestOutcome.resolved
          (Json.obj [("message", Json.str "bad query"), ("code", Json.str "BAD_QUERY")])
    ∧ (Json.obj [("message", Json.str "bad query"), ("code", Json.str "BAD_QUERY")]).isArr
      = false
    ∧ findOne true (Json.obj []) (Json.obj [("limit", Json.num 50)]) badQueryFetch
      = FindOneOutcome.resolved
          (some (Json.obj [("message", Json.str "bad query"), ("code", Json.str "BAD_QUERY")])) :=
  ⟨(findOne_is_find_with_limit_one true (Json.obj []) [("limit", Json.num 50)]
      (fun _ => FetchResult.success (HttpResponse.mk true (some (Json.arr [])) ""))).1,
   by decide,
   (findOne_is_find_with_limit_one true (Json.obj []) [("limit", Json.num 50)]
      (fun _ => FetchResult.success (HttpResponse.mk true (some (Json.arr [])) ""))).2.1
     "skip" (by decide),
   rfl,
   (findOne_is_find_with_limit_one true (Json.obj []) [("limit", Json.num 50)]
      (fun _ => FetchResult.success (HttpResponse.mk true (some (Json.arr [])) ""))).2.2.1
     [] rfl,
   rfl,
   rfl,
   (findOne_is_find_with_limit_one true (Json.obj []) [("limit", Json.num 50)]
      badQueryFetch).2.2.2
     (Json.obj [("message", Json.str "bad query"), ("code", Json.str "BAD_QUERY")]) rfl rfl⟩

/-- C10: for every operation other than `aggregate`, `batchUpdate` and
`bulkWrite`, the options element is always present: a descriptor carrying
no options (or a falsy options value) still gets the empty object appended,
so the canonical array has at least three elements and ends with an
options object. -/
theorem absent_options_sent_as_empty_object (b : RequestBody)
    (h1 : b.operation ≠ "aggregate" ∧ b.operation ≠ "batchUpdate" ∧ b.operation ≠ "bulkWrite")
    (h2 : b.selectOptions = none
          ∨ ∃ v, b.selectOptions = some v ∧ jsTruthy v = false) :
    (encodeRequest b).getLast? = some (Json.obj []) ∧ 3 ≤ (encodeRequest b).length := by
  have hv : jsOptionsValue b.selectOptions = Json.obj [] := by
    rcases h2 with h2 | ⟨v, hv1, hv2⟩
    · simp [jsOptionsValue, h2]
    · simp [jsOptionsValue, hv1, hv2]
  have he : encodeRequest b
      = Json.str b.operation :: b.query :: (documentSuffix b ++ [Json.obj []]) := by
    simp [encodeRequest, h1.1, h1.2.1, h1.2.2, hv]
  constructor
  · rw [he]
    exact getLast?_cons_cons_append _ _ _ _
  · rw [he]
    simp

/-- Witness for C10: a `find` descriptor with no options at all is encoded
with a trailing empty options object. -/
theorem absent_options_sent_as_empty_object_witness :
    (("find" : String) ≠ "aggregate" ∧ ("find" : String) ≠ "batchUpdate"
       ∧ ("find" : String) ≠ "bulkWrite")
    ∧ (RequestBody.mk "find" (Json.obj [("x", Json.num 1)]) none none).selectOptions = none
    ∧ ((encodeRequest (RequestBody.mk "find" (Json.obj [("x", Json.num 1)]) none none)).getLast?
         = some (Json.obj [])
       ∧ 3 ≤ (encodeRequest (RequestBody.mk "find" (Json.obj [("x", Json.num 1)]) none none)).length) :=
  ⟨⟨by decide, by decide, by decide⟩,
   rfl,
   absent_options_sent_as_empty_object
     (RequestBody.mk "find" (Json.obj [("x", Json.num 1)]) none none)
     ⟨by decide, by decide, by decide⟩ (Or.inl rfl)⟩
